import Mathlib

/-!
Verification of the ApiSuno-Cantalab server scheduler against its
natural-language specification.

The definitions below are a shallow embedding of `src/scheduler.js`
(the status-driven pipeline processors and the drip-sequence engine)
and of the cron wiring in `src/server.js`.  JavaScript strings are
modelled as Lean `String`/`List Char`; timestamps (`Date.now()`,
Firestore timestamps, ISO start times) are modelled as milliseconds in
`Int`; Firestore documents become Lean structures, `undefined`/missing
fields become `Option` or the empty string (matching the `|| ''`
coercions in the source); Firestore collections become Lean lists.
-/

/-! ## Small string helpers shared by several processors -/

/-- JavaScript `\w` character class (`[A-Za-z0-9_]`, ASCII). -/
def isWordChar (c : Char) : Bool := c.isAlphanum || c == '_'

/-- Characters matched by the `[\r\n\t]` class in `sanitizeParam`. -/
def isCRLFT (c : Char) : Bool := c == '\r' || c == '\n' || c == '\t'

/-- Whitespace removed by JavaScript `String.prototype.trim`. -/
def jsWs (c : Char) : Bool :=
  c == ' ' || c == '\t' || c == '\n' || c == '\r' || c == '\x0b' ||
  c == '\x0c' || c == '\u00A0' || c == '\uFEFF'

/-- Collapse every maximal run of characters satisfying `p` into the single
replacement character `r` (the effect of `replace(/X+/g, r)` for a
character class `X`).  The boolean tracks whether we are inside a run. -/
def collapseRuns (p : Char → Bool) (r : Char) : List Char → Bool → List Char
  | [], _ => []
  | c :: cs, inRun =>
    if p c then
      if inRun then collapseRuns p r cs true
      else r :: collapseRuns p r cs true
    else c :: collapseRuns p r cs false

/-- Drop trailing characters satisfying `jsWs` (right half of `trim()`). -/
def trimRight : List Char → List Char
  | [] => []
  | c :: cs =>
    match trimRight cs with
    | [] => if jsWs c then [] else [c]
    | r => c :: r

/-- JavaScript `String.prototype.trim` on a character list. -/
def jsTrim (l : List Char) : List Char := trimRight (l.dropWhile jsWs)

/-- JavaScript `s.trim()` on strings. -/
def jsTrimStr (s : String) : String := ⟨jsTrim s.data⟩

/-- `text.replace(/\D/g, '')`: keep only decimal digits. -/
def stripDigits (s : String) : String := ⟨s.data.filter Char.isDigit⟩

/-- JavaScript `s.split(' ')[0]`: the run of characters before the first
space character (the whole string when there is no space). -/
def firstSpaceToken (s : String) : String := ⟨s.data.takeWhile (fun c => c != ' ')⟩

/-- Does `pat` occur at the start of `l`? (helper for `containsStr`). -/
def startsWithChars : List Char → List Char → Bool
  | _, [] => true
  | [], _ :: _ => false
  | a :: as, b :: bs => a == b && startsWithChars as bs

/-- Character-list core of JavaScript `String.prototype.includes`. -/
def containsChars (pat : List Char) : List Char → Bool
  | [] => startsWithChars [] pat
  | c :: t => startsWithChars (c :: t) pat || containsChars pat t

/-- JavaScript `s.includes(pat)`. -/
def containsStr (s pat : String) : Bool := containsChars pat.data s.data

/-! ## `sanitizeParam` and `truncateToLimit` (src/scheduler.js lines 13-31) -/

/-- `sanitizeParam`: collapse `[\r\n\t]+` runs to one space, collapse
runs of two or more spaces to one space, then `trim()`.  (Collapsing a
run of a single space to a space is the identity, so modelling
`/ {2,}/g` with `collapseRuns` is exact.) -/
def sanitizeParam (text : String) : String :=
  ⟨jsTrim (collapseRuns (fun c => c == ' ') ' '
      (collapseRuns isCRLFT ' ' text.data false) false)⟩

/-- `truncateToLimit(text, maxLen, safetyMargin)`: return `text`
unchanged when its length is within `maxLen - safetyMargin`, else
`text.slice(0, maxLen - safetyMargin)`. -/
def truncateToLimit (text : String) (maxLen safetyMargin : Nat) : String :=
  if text.length ≤ maxLen - safetyMargin then text
  else ⟨text.data.take (maxLen - safetyMargin)⟩

/-! ## Data model -/

/-- A log entry added to a Lead's `messages` subcollection. -/
structure LogEntry where
  content : String
  sender : String
  mediaType : Option String
  mediaUrl : Option String
deriving DecidableEq

/-- An Active Sequence Instance embedded in a Lead
(`secuenciasActivas` array element).  `startTime` is the parsed ISO
start time in milliseconds; `completed` is absent (falsy) in freshly
enqueued instances, modelled as `false`. -/
structure SeqInstance where
  trigger : String
  startTime : Int
  index : Nat
  completed : Bool
deriving DecidableEq

/-- A parameter of a template message (`{key, value}`). -/
structure Param where
  key : String
  value : String
deriving DecidableEq

/-- A message of a Sequence Definition (or passed to `enviarMensaje`):
type tag, plain content, delay in minutes from sequence start, and the
template fields used by the `template` branch. -/
structure Mensaje where
  type : String
  contenido : String
  delay : Int
  parameters : List Param
  templateName : String
  language : String
deriving DecidableEq

/-- A Lead document.  String-valued attributes (nombre, telefono,
letra, ...) live in the `fields` association list — an absent
attribute is an absent key, and every read goes through `|| ''` in the
source, modelled by `leadGet`. -/
structure Lead where
  id : String
  fields : List (String × String)
  letraIds : List String
  etiquetas : List String
  secuenciasActivas : List SeqInstance
deriving DecidableEq

/-- Read a string attribute of a Lead (`leadData[k] || ''`). -/
def leadGet (lead : Lead) (k : String) : String :=
  (lead.fields.lookup k).getD ""

/-- Overwrite (or add) a string attribute in an association list. -/
def setField : List (String × String) → String → String → List (String × String)
  | [], k, v => [(k, v)]
  | (k', v') :: rest, k, v =>
    if k' == k then (k, v) :: rest else (k', v') :: setField rest k v

/-- Assign a string attribute of a Lead (`lead.k = v`). -/
def leadSet (lead : Lead) (k v : String) : Lead :=
  { lead with fields := setField lead.fields k v }

/-- A Sequence Definition (`secuencias` collection document). -/
structure SeqDef where
  trigger : String
  messages : List Mensaje
deriving DecidableEq

/-! ## `replacePlaceholders` (src/scheduler.js lines 54-64)

`template.replace(/\{\{(\w+)\}\}/g, cb)`: scan left to right; at each
position where two braces are followed by a nonempty run of word
characters and two closing braces, substitute via the callback and
continue after the match; otherwise advance one character.  The `Nat`
fuel is the remaining input length — every step consumes at least one
character, so starting the scan with `fuel = input length` computes the
full replacement. -/

/-- The replacement callback: `nombre` gives the first space-delimited
token of the Lead's name, `letra` gives the Lead's `letra` attribute,
any other field reads the attribute of the same name (absent → `''`). -/
def applyField (lead : Lead) (field : String) : String :=
  if field == "nombre" then firstSpaceToken (leadGet lead "nombre")
  else if field == "letra" then leadGet lead "letra"
  else leadGet lead field

/-- Fuel-indexed scanner for the global regex replace: a match needs
two opening braces, a nonempty run of word characters, and two closing
braces right after the run (`\w+` is greedy, so only the maximal run
can be followed by the closing braces); on a failed match the scan
advances one character, exactly like the regex engine. -/
def replAux (lead : Lead) : Nat → List Char → List Char
  | _, [] => []
  | 0, l => l
  | fuel + 1, c :: cs =>
    if c == '\x7b' then
      match cs with
      | [] => [c]
      | c2 :: cs2 =>
        if c2 == '\x7b' then
          let w := cs2.takeWhile isWordChar
          let r := cs2.dropWhile isWordChar
          if w.isEmpty then c :: replAux lead fuel (c2 :: cs2)
          else if r.take 2 == ['\x7d', '\x7d'] then
            (applyField lead (String.mk w)).data ++ replAux lead fuel (r.drop 2)
          else c :: replAux lead fuel (c2 :: cs2)
        else c :: replAux lead fuel (c2 :: cs2)
    else c :: replAux lead fuel cs

/-- `replacePlaceholders(template, leadData)`. -/
def replacePlaceholders (template : String) (lead : Lead) : String :=
  ⟨replAux lead template.data.length template.data⟩

/-! ## `enviarMensaje`, template branch (src/scheduler.js lines 72-157)

Only the parts the claims depend on are modelled: the on-demand fetch
of the Lead's `letra` before substitution, and the
substitute → sanitize → truncate processing of every template body
parameter.  The `letras` collection is modelled as an association list
from request id to stored lyric text (a missing document or missing
`letra` field reads as `''`). -/

/-- `letraDoc.exists ? letraDoc.data().letra : ''`. -/
def fetchLetra (letras : List (String × String)) (id : String) : String :=
  (letras.lookup id).getD ""

/-- The guarded mutation `lead.letra = ...`: performed only for a
`template` message, when some parameter value includes `{{letra}}` and
the Lead has a nonempty `letraIds` array; the document fetched is
`letraIds[0]`. -/
def effectiveLead (letras : List (String × String)) (lead : Lead) (m : Mensaje) : Lead :=
  if m.type == "template"
      && m.parameters.any (fun p => containsStr p.value "\x7b\x7bletra\x7d\x7d")
      && !lead.letraIds.isEmpty then
    leadSet lead "letra" (fetchLetra letras (lead.letraIds.headD ""))
  else lead

/-- The body-parameter texts actually sent by the `template` branch:
each parameter value is placeholder-substituted, sanitized, then
truncated to `1024 - 5` characters. -/
def templateParams (letras : List (String × String)) (lead : Lead) (m : Mensaje) :
    List String :=
  let lead1 := effectiveLead letras lead m
  m.parameters.map (fun p =>
    truncateToLimit (sanitizeParam (replacePlaceholders p.value lead1)) 1024 5)

/-! ## `processSequences` (src/scheduler.js lines 171-229) -/

/-- The outcome of the loop body for one Active Sequence Instance:
the (possibly mutated) instance, whether `dirty` was set, the messages
dispatched through `enviarMensaje`, and the log entries added to the
Lead's `messages` subcollection. -/
structure StepOut where
  inst : SeqInstance
  dirty : Bool
  sends : List Mensaje
  logs : List LogEntry
deriving DecidableEq

/-- One iteration of the `for (const seq of lead.secuenciasActivas)`
loop: resolve the Sequence Definition by trigger (first query result);
missing definition → skip; index past the step list → mark completed;
otherwise compute `sendAt = startTime + delay minutes` and, when due,
dispatch the step, append a system log entry and advance the index. -/
def stepInstance (defs : List SeqDef) (now : Int) (seq : SeqInstance) : StepOut :=
  match defs.find? (fun d => d.trigger == seq.trigger) with
  | none => ⟨seq, false, [], []⟩
  | some d =>
    if h : seq.index < d.messages.length then
      let msg := d.messages[seq.index]
      let sendAt := seq.startTime + msg.delay * 60000
      if now < sendAt then ⟨seq, false, [], []⟩
      else
        ⟨{ seq with index := seq.index + 1 }, true, [msg],
         [⟨"Se envió el " ++ msg.type ++ " de la secuencia " ++ seq.trigger,
           "system", none, none⟩]⟩
    else ⟨{ seq with completed := true }, true, [], []⟩

/-- The result of one `processSequences` tick on one Lead. -/
structure LeadTickOut where
  lead : Lead
  sends : List Mensaje
  logs : List LogEntry
deriving DecidableEq

/-- Dispatched messages contributed by a list of instances in one tick. -/
def tickSends (defs : List SeqDef) (now : Int) (l : List SeqInstance) : List Mensaje :=
  (l.map (stepInstance defs now)).flatMap (fun o => o.sends)

/-- Log entries contributed by a list of instances in one tick. -/
def tickLogs (defs : List SeqDef) (now : Int) (l : List SeqInstance) : List LogEntry :=
  (l.map (stepInstance defs now)).flatMap (fun o => o.logs)

/-- One `processSequences` tick on one Lead: run every instance through
the loop body; if any iteration set `dirty`, store back the list of
non-completed instances, otherwise leave the stored list untouched. -/
def processLead (defs : List SeqDef) (now : Int) (lead : Lead) : LeadTickOut :=
  let rs := lead.secuenciasActivas.map (stepInstance defs now)
  let dirty := rs.any (fun o => o.dirty)
  let newList :=
    if dirty then (rs.map (fun o => o.inst)).filter (fun s => !s.completed)
    else lead.secuenciasActivas
  ⟨{ lead with secuenciasActivas := newList },
   rs.flatMap (fun o => o.sends), rs.flatMap (fun o => o.logs)⟩

/-! ## Music pipeline records and processors -/

/-- A `musica` collection document. -/
structure MusicaRec where
  id : String
  status : String
  leadId : String
  leadPhone : String
  purpose : String
  stylePrompt : String
  lyrics : String
  clipUrl : String
  taskId : Option String
  errorMsg : Option String
  generatedAt : Option Int
  createdAt : Option Int
  sentAt : Option Int
  updatedAt : Option Int
deriving DecidableEq

/-- The music provider's response to a generation request
(`res.data.code`, `res.data.data?.taskId`). -/
structure SunoResponse where
  code : Int
  taskId : Option String
deriving DecidableEq

/-- `lanzarTareaSuno` (src/scheduler.js lines 496-521): submit the
task and return the task id, throwing when the response lacks the
success code 200 or a (truthy) task id.  The provider's response is a
parameter of the model. -/
def lanzarTareaSuno (title stylePrompt lyrics : String) (res : SunoResponse) :
    Except String String :=
  if res.code != 200 || res.taskId.getD "" == "" then
    Except.error ("No taskId recibido de Suno. Respuesta: " ++ title ++ stylePrompt ++ lyrics)
  else Except.ok (res.taskId.getD "")

/-- The per-document body of `generarMusicaConSuno`: mark the document
`Procesando música` with a generation timestamp, then either store the
returned task id or mark `Error música` with the error message. -/
def launchOne (res : SunoResponse) (now : Int) (doc : MusicaRec) : MusicaRec :=
  let doc1 := { doc with status := "Procesando música", generatedAt := some now }
  match lanzarTareaSuno (doc.purpose.take 30) doc.stylePrompt doc.lyrics res with
  | Except.ok t => { doc1 with taskId := some t }
  | Except.error e =>
    { doc1 with status := "Error música", errorMsg := some e, updatedAt := some now }

/-- `generarMusicaConSuno` (src/scheduler.js lines 530-568): take the
first document with status `Sin música` (` .limit(1)`), process it with
`launchOne`, leave every other document untouched. -/
def generarMusicaConSuno (res : SunoResponse) (now : Int) (docs : List MusicaRec) :
    List MusicaRec :=
  match docs.findIdx? (fun d => d.status == "Sin música") with
  | none => docs
  | some i =>
    match docs[i]? with
    | none => docs
    | some doc => docs.set i (launchOne res now doc)

/-- A WhatsApp send through the delivery adapter. -/
inductive WaSend where
  | text (dest body : String)
  | audio (dest media : String)
  | video (dest media : String)
deriving DecidableEq

/-- The outcome of the music Deliver loop body on one document. -/
structure MusicSendOut where
  doc : MusicaRec
  sends : List WaSend
  enqueued : Option SeqInstance
deriving DecidableEq

/-- The per-document body of `enviarMusicaPorWhatsApp`
(src/scheduler.js lines 575-628): gate on ≥15 minutes since
`createdAt`, where `createdAt?.toDate?.().getTime() || now` coerces a
missing timestamp AND the falsy epoch value 0 to `now`; skip (warn)
when phone, lyrics or clip URL is missing; otherwise send the lyric
text behind a fixed intro line and the clip audio, set status
`Enviada` with a sent timestamp, and enqueue a `CancionEnviada`
sequence instance with index 0 on the Lead. -/
def enviarMusicaDoc (now : Int) (doc : MusicaRec) : MusicSendOut :=
  let phone := stripDigits doc.leadPhone
  let created := match doc.createdAt with
    | none => now
    | some t => if t = 0 then now else t
  if now - created < 15 * 60000 then ⟨doc, [], none⟩
  else if phone == "" || doc.lyrics == "" || doc.clipUrl == "" then ⟨doc, [], none⟩
  else
    ⟨{ doc with status := "Enviada", sentAt := some now },
     [WaSend.text phone ("Aquí tienes la letra de tu canción:\n\n" ++ doc.lyrics),
      WaSend.audio phone doc.clipUrl],
     some ⟨"CancionEnviada", now, 0, false⟩⟩

/-- `enviarMusicaPorWhatsApp` over the whole collection: every document
with status `Enviar música` goes through `enviarMusicaDoc`. -/
def enviarMusicaPorWhatsApp (now : Int) (docs : List MusicaRec) :
    List MusicaRec × List WaSend × List SeqInstance :=
  (docs.map (fun d =>
     if d.status == "Enviar música" then (enviarMusicaDoc now d).doc else d),
   (docs.filter (fun d => d.status == "Enviar música")).flatMap
     (fun d => (enviarMusicaDoc now d).sends),
   (docs.filter (fun d => d.status == "Enviar música")).filterMap
     (fun d => (enviarMusicaDoc now d).enqueued))

/-- Modelled from the spec: `retryStuckMusic` is imported by
`src/server.js` from the scheduler module and scheduled as
`retryStuckMusic(10)` every five minutes, but its implementation is not
among the provided sources.  Per §4.4 of the specification it scans
Music Requests in status `Procesando música` whose generation timestamp
is older than the threshold (minutes) and, for each, clears the status
back to `Sin música` and clears the stored task id and error message;
no other record is touched. -/
def retryStuckMusic (thresholdMin : Int) (now : Int) (docs : List MusicaRec) :
    List MusicaRec :=
  docs.map (fun d =>
    if d.status == "Procesando música"
        && (match d.generatedAt with
            | some g => decide (now - g > thresholdMin * 60000)
            | none => false) then
      { d with status := "Sin música", taskId := none, errorMsg := none }
    else d)

/-! ## Lyric pipeline records and processors -/

/-- A `letras` collection document. -/
structure LetraRec where
  id : String
  leadId : String
  letra : String
  requesterName : String
  letraGeneratedAt : Option Int
  status : String
deriving DecidableEq

/-- Firestore `FieldValue.arrayUnion(x)`: append `x` unless present. -/
def arrayUnion (l : List String) (x : String) : List String :=
  if l.contains x then l else l ++ [x]

/-- The per-document body of `generateLetras` (src/scheduler.js lines
235-290).  `genResult` is the text-generation adapter's answer
(`response.data.choices?.[0]?.message?.content`, `none` when absent);
an empty trimmed result skips the document entirely; on success the
document gets the lyric, status `enviarLetra` and a generation
timestamp, and the Lead identified by `leadId` gets the lyric copied
into its `letra` attribute and the request id array-unioned into
`letraIds`. -/
def generateLetrasDoc (genResult : Option String) (now : Int)
    (leads : List Lead) (r : LetraRec) : LetraRec × List Lead :=
  match genResult with
  | none => (r, leads)
  | some s =>
    let letra := jsTrimStr s
    if letra == "" then (r, leads)
    else
      ({ r with letra := letra, status := "enviarLetra", letraGeneratedAt := some now },
       leads.map (fun l =>
         if l.id == r.leadId then
           { l with fields := setField l.fields "letra" letra,
                    letraIds := arrayUnion l.letraIds r.id }
         else l))

/-- The `/^\d{10,15}$/` test applied in `sendLetras`. -/
def validPhone (s : String) : Bool :=
  s.data.all Char.isDigit && decide (10 ≤ s.length) && decide (s.length ≤ 15)

/-- Fixed media assets sent by `sendLetras`. -/
def sendLetrasVideoUrl : String :=
  "https://cantalab.com/wp-content/uploads/2025/04/WhatsApp-Video-2025-04-23-at-8.01.51-PM.mp4"

/-- Fixed audio asset sent by `sendLetras`. -/
def sendLetrasAudioUrl : String :=
  "https://cantalab.com/wp-content/uploads/2024/11/JTKlhy_inbox.oga"

/-- The outcome of the lyric Deliver loop body on one document. -/
structure LetraSendOut where
  doc : LetraRec
  sends : List WaSend
  logs : List LogEntry
  leadUpdate : Option SeqInstance
deriving DecidableEq

/-- The fixed promotional message of `sendLetras`. -/
def promoText (firstName : String) : String :=
  firstName ++ " el costo normal es de $1997 MXN pero tenemos la promocional esta semana de $697 MXN.\n\n" ++
  "Puedes pagar en esta cuenta:\n\n🏦 Transferencia bancaria:\n" ++
  "Cuenta: 4152 3143 2669 0826\nBanco: BBVA\nTitular: Iván Martínez Jiménez\n\n" ++
  "🌐 Pago en línea o en dolares 🇺🇸 (45 USD):\n" ++
  "https://cantalab.com/tu-cancion-mx/"

/-- The per-document body of `sendLetras` (src/scheduler.js lines
298-381): skip when `leadId`, `letra` or the generation timestamp is
missing, when fewer than 15 minutes have elapsed, when the Lead does
not exist, or when the Lead's phone fails the 10-15-digit test;
otherwise send greeting, lyric, audio, video and promotional text
(each paired with a message-log append), tag the Lead, enqueue a
`LetraEnviada` sequence instance with index 0, and set the document's
status to `enviada`. -/
def sendLetrasDoc (now : Int) (leads : List Lead) (r : LetraRec) : LetraSendOut :=
  if r.leadId == "" || r.letra == "" || r.letraGeneratedAt.isNone then ⟨r, [], [], none⟩
  else
    match r.letraGeneratedAt with
    | none => ⟨r, [], [], none⟩
    | some g =>
      if now - g < 15 * 60000 then ⟨r, [], [], none⟩
      else
        match leads.find? (fun l => l.id == r.leadId) with
        | none => ⟨r, [], [], none⟩
        | some lead =>
          let phoneClean := stripDigits (leadGet lead "telefono")
          if !validPhone phoneClean then ⟨r, [], [], none⟩
          else
            let firstName := firstSpaceToken (jsTrimStr r.requesterName)
            let greeting := "Listo " ++ firstName ++
              ", ya terminé la letra para tu canción. *Léela y dime si te gusta.*"
            let promo := promoText firstName
            ⟨{ r with status := "enviada" },
             [WaSend.text phoneClean greeting,
              WaSend.text phoneClean r.letra,
              WaSend.audio phoneClean sendLetrasAudioUrl,
              WaSend.video phoneClean sendLetrasVideoUrl,
              WaSend.text phoneClean promo],
             [⟨greeting, "business", none, none⟩,
              ⟨r.letra, "business", none, none⟩,
              ⟨"", "business", some "audio", some sendLetrasAudioUrl⟩,
              ⟨"", "business", some "video", some sendLetrasVideoUrl⟩,
              ⟨promo, "business", none, none⟩],
             some ⟨"LetraEnviada", now, 0, false⟩⟩

/-! ## Helper lemmas -/

/-- Every character produced by `collapseRuns` is the replacement
character or an input character not satisfying `p`. -/
theorem mem_collapseRuns {p : Char → Bool} {r : Char} :
    ∀ {l : List Char} {b : Bool} {c : Char}, c ∈ collapseRuns p r l b →
      c = r ∨ (c ∈ l ∧ p c = false) := by
  intro l
  induction l with
  | nil => intro b c h; simp [collapseRuns] at h
  | cons x xs ih =>
    intro b c h
    by_cases hp : p x = true
    · cases b with
      | true =>
        simp only [collapseRuns, hp, if_true] at h
        rcases ih h with h' | ⟨hm, hf⟩
        · exact Or.inl h'
        · exact Or.inr ⟨List.mem_cons_of_mem _ hm, hf⟩
      | false =>
        simp only [collapseRuns, hp, if_true] at h
        rcases List.mem_cons.mp h with rfl | h'
        · exact Or.inl rfl
        · rcases ih h' with h'' | ⟨hm, hf⟩
          · exact Or.inl h''
          · exact Or.inr ⟨List.mem_cons_of_mem _ hm, hf⟩
    · simp only [collapseRuns, hp, if_false, Bool.not_eq_true] at h
      rcases List.mem_cons.mp h with rfl | h'
      · exact Or.inr ⟨List.mem_cons_self _ _, Bool.not_eq_true _ ▸ hp⟩
      · rcases ih h' with h'' | ⟨hm, hf⟩
        · exact Or.inl h''
        · exact Or.inr ⟨List.mem_cons_of_mem _ hm, hf⟩

/-- `trimRight` returns a prefix of its input. -/
theorem prefixOfSelf_trimRight : ∀ l : List Char, trimRight l <+: l := by
  intro l
  induction l with
  | nil => simp [trimRight]
  | cons c cs ih =>
    simp only [trimRight]
    cases h : trimRight cs with
    | nil =>
      by_cases hw : jsWs c = true
      · simp [hw]
      · simp only [hw]
        exact ⟨cs, by simp⟩
    | cons y ys =>
      rw [h] at ih
      obtain ⟨t, ht⟩ := ih
      exact ⟨t, by simp [← ht]⟩

/-- The space-collapsing pass yields no two adjacent spaces; moreover
when started inside a run its output does not begin with a space. -/
theorem chain_collapseSpaces :
    ∀ (l : List Char) (b : Bool),
      List.Chain' (fun a c => ¬(a = ' ' ∧ c = ' '))
        (collapseRuns (fun c => c == ' ') ' ' l b) ∧
      (b = true →
        ∀ c₀ ∈ (collapseRuns (fun c => c == ' ') ' ' l b).head?, c₀ ≠ ' ') := by
  intro l
  induction l with
  | nil => intro b; simp [collapseRuns]
  | cons x xs ih =>
    intro b
    by_cases hx : x = ' '
    · subst hx
      cases b with
      | true =>
        simpa [collapseRuns] using ih true
      | false =>
        simp only [collapseRuns, beq_self_eq_true, if_true, Bool.false_eq_true, if_false]
        constructor
        · rw [List.chain'_cons']
          refine ⟨?_, (ih true).1⟩
          intro y hy
          have := (ih true).2 rfl y hy
          simp [this]
        · simp
    · have hxb : (x == ' ') = false := by simp [hx]
      simp only [collapseRuns, hxb, if_false, Bool.false_eq_true]
      constructor
      · rw [List.chain'_cons']
        refine ⟨?_, (ih false).1⟩
        intro y hy
        simp [hx]
      · intro _ c₀ hc₀
        simp only [List.head?_cons, Option.mem_def, Option.some.injEq] at hc₀
        subst hc₀
        exact hx

/-- `setField` stores the assigned value under the assigned key. -/
theorem lookup_setField_self (fs : List (String × String)) (k v : String) :
    (setField fs k v).lookup k = some v := by
  induction fs with
  | nil => simp [setField, List.lookup]
  | cons p rest ih =>
    obtain ⟨k', v'⟩ := p
    by_cases h : k' = k
    · subst h
      simp [setField, List.lookup]
    · have hb : (k' == k) = false := by simp [h]
      have hb2 : (k == k') = false := by
        simp only [beq_eq_false_iff_ne, ne_eq]
        exact fun hh => h hh.symm
      simp [setField, hb, List.lookup, ih, hb2]

/-- The assigned id is a member after a Firestore array-union. -/
theorem mem_arrayUnion (l : List String) (x : String) : x ∈ arrayUnion l x := by
  unfold arrayUnion
  by_cases h : x ∈ l
  · simp [h]
  · simp [h]

/-! ## C2 — Stuck-task Reaper -/

/-- C2: the Reaper at threshold 10 minutes resets a `Procesando música`
record (status back to `Sin música`, task id and error message cleared)
exactly when its generation timestamp is strictly older than 10
minutes; a record at or inside the boundary, and any record in a
different status, is left untouched. -/
theorem c2_reaper_resets_iff_strictly_older
    (now g : Int) (docs : List MusicaRec) (j : Nat) (d : MusicaRec)
    (hj : docs[j]? = some d) :
    (d.status = "Procesando música" → d.generatedAt = some g →
      ((now - g > 600000 →
         (retryStuckMusic 10 now docs)[j]? =
           some { d with status := "Sin música", taskId := none, errorMsg := none }) ∧
       (now - g ≤ 600000 → (retryStuckMusic 10 now docs)[j]? = some d))) ∧
    (d.status ≠ "Procesando música" → (retryStuckMusic 10 now docs)[j]? = some d) := by
  have hout : (retryStuckMusic 10 now docs)[j]? =
      some (if d.status == "Procesando música"
              && (match d.generatedAt with
                  | some g' => decide (now - g' > 10 * 60000)
                  | none => false) then
              { d with status := "Sin música", taskId := none, errorMsg := none }
            else d) := by
    simp [retryStuckMusic, List.getElem?_map, hj]
  constructor
  · intro hst hg
    rw [hst] at hout
    rw [hg] at hout
    constructor
    · intro hold
      rw [hout]
      have hc : (600000 : Int) < now - g := hold
      simp [hc, hg]
    · intro hnew
      rw [hout]
      have hc : ¬ (600000 : Int) < now - g := by omega
      simp [hc]
  · intro hst
    rw [hout]
    have : (d.status == "Procesando música") = false := by
      simpa using hst
    simp [this]

/-- Witness for C2 at a concrete record one millisecond past the
threshold. -/
theorem c2_reaper_resets_iff_strictly_older_witness :
    (retryStuckMusic 10 600001
        [⟨"M2", "Procesando música", "", "", "", "", "", "", some "T1", some "e",
          some 0, none, none, none⟩])[0]? =
      some ⟨"M2", "Sin música", "", "", "", "", "", "", none, none,
            some 0, none, none, none⟩ :=
  ((c2_reaper_resets_iff_strictly_older 600001 0
      [⟨"M2", "Procesando música", "", "", "", "", "", "", some "T1", some "e",
        some 0, none, none, none⟩] 0
      ⟨"M2", "Procesando música", "", "", "", "", "", "", some "T1", some "e",
        some 0, none, none, none⟩ rfl).1 rfl rfl).1 (by decide)

/-! ## C3 — music Launch processor -/

/-- C3: `generarMusicaConSuno` modifies at most one record per
invocation; a successful submission leaves the record in `Procesando
música` with the provider's task id and a generation timestamp, a
failed one leaves it in `Error música` with the error message stored;
and `lanzarTareaSuno` fails exactly when the response lacks the
success code 200 or a task id. -/
theorem c3_launch_processor (res : SunoResponse) (now : Int) (docs : List MusicaRec) :
    (∀ j k : Nat, (generarMusicaConSuno res now docs)[j]? ≠ docs[j]? →
        (generarMusicaConSuno res now docs)[k]? ≠ docs[k]? → j = k) ∧
    (∀ doc : MusicaRec,
      (∀ t, res.code = 200 → res.taskId = some t → t ≠ "" →
        launchOne res now doc =
          { doc with status := "Procesando música", taskId := some t,
                     generatedAt := some now }) ∧
      ((res.code ≠ 200 ∨ res.taskId.getD "" = "") →
        (launchOne res now doc).status = "Error música" ∧
        (launchOne res now doc).errorMsg ≠ none ∧
        (launchOne res now doc).generatedAt = some now)) ∧
    (∀ title style lyr,
      (∃ e, lanzarTareaSuno title style lyr res = Except.error e) ↔
        (res.code ≠ 200 ∨ res.taskId.getD "" = "")) := by
  refine ⟨?_, ?_, ?_⟩
  · intro j k hj hk
    cases hf : docs.findIdx? (fun d => d.status == "Sin música") with
    | none =>
      have hid : generarMusicaConSuno res now docs = docs := by
        unfold generarMusicaConSuno
        rw [hf]
      rw [hid] at hj
      exact absurd rfl hj
    | some i =>
      cases hd : docs[i]? with
      | none =>
        have hid : generarMusicaConSuno res now docs = docs := by
          unfold generarMusicaConSuno
          rw [hf]
          simp [hd]
        rw [hid] at hj
        exact absurd rfl hj
      | some doc =>
        have hout : generarMusicaConSuno res now docs =
            docs.set i (launchOne res now doc) := by
          unfold generarMusicaConSuno
          rw [hf]
          simp [hd]
        rw [hout] at hj hk
        by_cases hji : j = i
        · by_cases hki : k = i
          · rw [hji, hki]
          · exact absurd (List.getElem?_set_ne (fun hh => hki hh.symm)) hk
        · exact absurd (List.getElem?_set_ne (fun hh => hji hh.symm)) hj
  · intro doc
    constructor
    · intro t hcode htask hne
      unfold launchOne lanzarTareaSuno
      rw [hcode, htask]
      have h1 : ((200 : Int) != 200) = false := by simp
      have h2 : ((some t : Option String).getD "" == "") = false := by
        simpa using hne
      simp [h1, h2, hne]
    · intro hfail
      unfold launchOne lanzarTareaSuno
      have hcond : (res.code != 200 || res.taskId.getD "" == "") = true := by
        rcases hfail with h | h
        · simp [h]
        · simp [h]
      simp [hcond]
  · intro title style lyr
    unfold lanzarTareaSuno
    constructor
    · rintro ⟨e, he⟩
      by_cases hc : (res.code != 200 || res.taskId.getD "" == "") = true
      · rcases Bool.or_eq_true_iff.mp hc with h | h
        · exact Or.inl (by simpa using h)
        · exact Or.inr (by simpa using h)
      · rw [if_neg hc] at he
        exact absurd he (by simp)
    · intro hfail
      have hcond : (res.code != 200 || res.taskId.getD "" == "") = true := by
        rcases hfail with h | h
        · simp [h]
        · simp [h]
      rw [if_pos hcond]
      exact ⟨_, rfl⟩

/-- Witness for C3: a concrete successful launch. -/
theorem c3_launch_processor_witness :
    launchOne ⟨200, some "T9"⟩ 5
        ⟨"M1", "Sin música", "L1", "55", "p", "s", "l", "", none, none, none, none,
         none, none⟩ =
      ⟨"M1", "Procesando música", "L1", "55", "p", "s", "l", "", some "T9", none,
       some 5, none, none, none⟩ :=
  ((c3_launch_processor ⟨200, some "T9"⟩ 5 []).2.1
      ⟨"M1", "Sin música", "L1", "55", "p", "s", "l", "", none, none, none, none,
       none, none⟩).1 "T9" rfl rfl (by decide)

/-! ## C5 — NuevoLead scenario -/

/-- C5 counterexample: a Lead with the single instance
`{trigger:"NuevoLead", startTime:0, index:0}` and a definition with one
step of delay 0, ticked at time 0 (≥ startTime): the step IS sent, but
the stored instance list is `[{index := 1, completed := false}]` — the
instance is neither marked completed nor pruned on this first tick, so
the claim as stated is false. -/
theorem c5_first_tick_counterexample :
    (processLead [⟨"NuevoLead", [⟨"texto", "hola", 0, [], "", ""⟩]⟩] 0
        ⟨"L1", [], [], [], [⟨"NuevoLead", 0, 0, false⟩]⟩).sends =
      [⟨"texto", "hola", 0, [], "", ""⟩] ∧
    (processLead [⟨"NuevoLead", [⟨"texto", "hola", 0, [], "", ""⟩]⟩] 0
        ⟨"L1", [], [], [], [⟨"NuevoLead", 0, 0, false⟩]⟩).lead.secuenciasActivas =
      [⟨"NuevoLead", 0, 1, false⟩] ∧
    ¬ ((processLead [⟨"NuevoLead", [⟨"texto", "hola", 0, [], "", ""⟩]⟩] 0
        ⟨"L1", [], [], [], [⟨"NuevoLead", 0, 0, false⟩]⟩).lead.secuenciasActivas = []) ∧
    (∀ s ∈ (processLead [⟨"NuevoLead", [⟨"texto", "hola", 0, [], "", ""⟩]⟩] 0
        ⟨"L1", [], [], [], [⟨"NuevoLead", 0, 0, false⟩]⟩).lead.secuenciasActivas,
      s.completed = false) := by
  refine ⟨by decide, by decide, by decide, ?_⟩
  intro s hs
  have : s = ⟨"NuevoLead", 0, 1, false⟩ := by
    have h2 : (processLead [⟨"NuevoLead", [⟨"texto", "hola", 0, [], "", ""⟩]⟩] 0
        ⟨"L1", [], [], [], [⟨"NuevoLead", 0, 0, false⟩]⟩).lead.secuenciasActivas =
        [⟨"NuevoLead", 0, 1, false⟩] := by decide
    rw [h2] at hs
    simpa using hs
  rw [this]

/-- C5 amended: on the first tick at any time ≥ T the step is sent and
the instance is stored back with index 1 (not completed, not pruned);
the instance is marked completed and pruned on the following tick,
which sends nothing. -/
theorem c5_two_tick_completion
    (T now1 now2 : Int) (msg : Mensaje) (lead : Lead)
    (hdelay : msg.delay = 0)
    (hseqs : lead.secuenciasActivas = [⟨"NuevoLead", T, 0, false⟩])
    (h1 : T ≤ now1) :
    (processLead [⟨"NuevoLead", [msg]⟩] now1 lead).sends = [msg] ∧
    (processLead [⟨"NuevoLead", [msg]⟩] now1 lead).lead.secuenciasActivas =
      [⟨"NuevoLead", T, 1, false⟩] ∧
    (processLead [⟨"NuevoLead", [msg]⟩] now2
        (processLead [⟨"NuevoLead", [msg]⟩] now1 lead).lead).sends = [] ∧
    (processLead [⟨"NuevoLead", [msg]⟩] now2
        (processLead [⟨"NuevoLead", [msg]⟩] now1 lead).lead).lead.secuenciasActivas =
      [] := by
  have hstep1 : stepInstance [⟨"NuevoLead", [msg]⟩] now1 ⟨"NuevoLead", T, 0, false⟩ =
      ⟨⟨"NuevoLead", T, 1, false⟩, true, [msg],
       [⟨"Se envió el " ++ msg.type ++ " de la secuencia " ++ "NuevoLead",
         "system", none, none⟩]⟩ := by
    have hnotlt : ¬ (now1 < T + msg.delay * 60000) := by
      rw [hdelay]
      omega
    simp [stepInstance, List.find?, hnotlt]
  have hstep2 : stepInstance [⟨"NuevoLead", [msg]⟩] now2 ⟨"NuevoLead", T, 1, false⟩ =
      ⟨⟨"NuevoLead", T, 1, true⟩, true, [], []⟩ := by
    simp [stepInstance, List.find?]
  have hout1 : processLead [⟨"NuevoLead", [msg]⟩] now1 lead =
      ⟨{ lead with secuenciasActivas := [⟨"NuevoLead", T, 1, false⟩] }, [msg],
       [⟨"Se envió el " ++ msg.type ++ " de la secuencia " ++ "NuevoLead",
         "system", none, none⟩]⟩ := by
    unfold processLead
    rw [hseqs]
    simp [hstep1]
  refine ⟨by rw [hout1], by rw [hout1], ?_, ?_⟩
  · rw [hout1]
    unfold processLead
    simp [hstep2]
  · rw [hout1]
    unfold processLead
    simp [hstep2]

/-- Witness for the amended C5 at concrete times. -/
theorem c5_two_tick_completion_witness :
    (processLead [⟨"NuevoLead", [⟨"texto", "hola", 0, [], "", ""⟩]⟩] 3
        ⟨"L1", [], [], [], [⟨"NuevoLead", 2, 0, false⟩]⟩).sends =
      [⟨"texto", "hola", 0, [], "", ""⟩] ∧
    (processLead [⟨"NuevoLead", [⟨"texto", "hola", 0, [], "", ""⟩]⟩] 3
        ⟨"L1", [], [], [], [⟨"NuevoLead", 2, 0, false⟩]⟩).lead.secuenciasActivas =
      [⟨"NuevoLead", 2, 1, false⟩] ∧
    (processLead [⟨"NuevoLead", [⟨"texto", "hola", 0, [], "", ""⟩]⟩] 4
        (processLead [⟨"NuevoLead", [⟨"texto", "hola", 0, [], "", ""⟩]⟩] 3
          ⟨"L1", [], [], [], [⟨"NuevoLead", 2, 0, false⟩]⟩).lead).sends = [] ∧
    (processLead [⟨"NuevoLead", [⟨"texto", "hola", 0, [], "", ""⟩]⟩] 4
        (processLead [⟨"NuevoLead", [⟨"texto", "hola", 0, [], "", ""⟩]⟩] 3
          ⟨"L1", [], [], [], [⟨"NuevoLead", 2, 0, false⟩]⟩).lead).lead.secuenciasActivas =
      [] :=
  c5_two_tick_completion 2 3 4 ⟨"texto", "hola", 0, [], "", ""⟩
    ⟨"L1", [], [], [], [⟨"NuevoLead", 2, 0, false⟩]⟩ rfl rfl (by decide)

/-! ## C1 — Sequence Engine timing -/

/-- C1: for an instance whose index is inside the resolved definition's
step list, the due time is `startTime + delay minutes`; a tick strictly
before it changes nothing for that instance (no dispatch, no log, index
unchanged, instance kept in the stored list), and a tick at or after it
dispatches exactly that one step, appends exactly one system-authored
log entry, and stores the instance back with the index advanced by one. -/
theorem c1_sequence_engine_timing
    (defs : List SeqDef) (now : Int) (lead : Lead)
    (pre post : List SeqInstance) (seq : SeqInstance) (d : SeqDef) (msg : Mensaje)
    (hsplit : lead.secuenciasActivas = pre ++ seq :: post)
    (hnc : seq.completed = false)
    (hfind : defs.find? (fun x => x.trigger == seq.trigger) = some d)
    (hidx : seq.index < d.messages.length)
    (hmsg : d.messages[seq.index] = msg) :
    (now < seq.startTime + msg.delay * 60000 →
      stepInstance defs now seq = ⟨seq, false, [], []⟩ ∧
      (processLead defs now lead).sends =
        tickSends defs now pre ++ tickSends defs now post ∧
      (processLead defs now lead).logs =
        tickLogs defs now pre ++ tickLogs defs now post ∧
      seq ∈ (processLead defs now lead).lead.secuenciasActivas) ∧
    (seq.startTime + msg.delay * 60000 ≤ now →
      stepInstance defs now seq =
        ⟨{ seq with index := seq.index + 1 }, true, [msg],
         [⟨"Se envió el " ++ msg.type ++ " de la secuencia " ++ seq.trigger,
           "system", none, none⟩]⟩ ∧
      (processLead defs now lead).sends =
        tickSends defs now pre ++ msg :: tickSends defs now post ∧
      (processLead defs now lead).logs =
        tickLogs defs now pre ++
          ⟨"Se envió el " ++ msg.type ++ " de la secuencia " ++ seq.trigger,
           "system", none, none⟩ :: tickLogs defs now post ∧
      { seq with index := seq.index + 1 } ∈
        (processLead defs now lead).lead.secuenciasActivas) := by
  constructor
  · intro hlt
    have hstep : stepInstance defs now seq = ⟨seq, false, [], []⟩ := by
      simp [stepInstance, hfind, hidx, hmsg, hlt]
    refine ⟨hstep, ?_, ?_, ?_⟩
    · unfold processLead
      rw [hsplit, List.map_append, List.map_cons, hstep]
      simp [tickSends]
    · unfold processLead
      rw [hsplit, List.map_append, List.map_cons, hstep]
      simp [tickLogs]
    · unfold processLead
      rw [hsplit, List.map_append, List.map_cons, hstep]
      by_cases hd : ((pre.map (stepInstance defs now) ++
          (⟨seq, false, [], []⟩ : StepOut) :: post.map (stepInstance defs now)).any
            (fun o => o.dirty)) = true
      · simp only [hd, if_true]
        apply List.mem_filter.mpr
        refine ⟨?_, by simp [hnc]⟩
        apply List.mem_map.mpr
        exact ⟨⟨seq, false, [], []⟩, by simp, rfl⟩
      · simp only [hd]
        simp only [Bool.false_eq_true, if_false]
        exact List.mem_append.mpr (Or.inr (List.mem_cons_self _ _))
  · intro hge
    have hstep : stepInstance defs now seq =
        ⟨{ seq with index := seq.index + 1 }, true, [msg],
         [⟨"Se envió el " ++ msg.type ++ " de la secuencia " ++ seq.trigger,
           "system", none, none⟩]⟩ := by
      have hnlt : ¬ (now < seq.startTime + msg.delay * 60000) := by omega
      simp [stepInstance, hfind, hidx, hmsg, hnlt]
    refine ⟨hstep, ?_, ?_, ?_⟩
    · unfold processLead
      rw [hsplit, List.map_append, List.map_cons, hstep]
      simp [tickSends]
    · unfold processLead
      rw [hsplit, List.map_append, List.map_cons, hstep]
      simp [tickLogs]
    · unfold processLead
      rw [hsplit, List.map_append, List.map_cons, hstep]
      have hd : ((pre.map (stepInstance defs now) ++
          (⟨{ seq with index := seq.index + 1 }, true, [msg],
            [⟨"Se envió el " ++ msg.type ++ " de la secuencia " ++ seq.trigger,
              "system", none, none⟩]⟩ : StepOut) ::
            post.map (stepInstance defs now)).any (fun o => o.dirty)) = true := by
        apply List.any_eq_true.mpr
        refine ⟨_, List.mem_append.mpr (Or.inr (List.mem_cons_self _ _)), rfl⟩
      simp only [hd, if_true]
      apply List.mem_filter.mpr
      refine ⟨?_, by simp [hnc]⟩
      apply List.mem_map.mpr
      refine ⟨_, List.mem_append.mpr (Or.inr (List.mem_cons_self _ _)), rfl⟩

/-- Witness for C1: one-step definition, due exactly at `sendAt`. -/
theorem c1_sequence_engine_timing_witness :
    stepInstance [⟨"Bienvenida", [⟨"texto", "hey", 2, [], "", ""⟩]⟩] 120000
        ⟨"Bienvenida", 0, 0, false⟩ =
      ⟨⟨"Bienvenida", 0, 1, false⟩, true, [⟨"texto", "hey", 2, [], "", ""⟩],
       [⟨"Se envió el " ++ "texto" ++ " de la secuencia " ++ "Bienvenida",
         "system", none, none⟩]⟩ :=
  ((c1_sequence_engine_timing [⟨"Bienvenida", [⟨"texto", "hey", 2, [], "", ""⟩]⟩]
      120000 ⟨"LW", [], [], [], [⟨"Bienvenida", 0, 0, false⟩]⟩ [] []
      ⟨"Bienvenida", 0, 0, false⟩ ⟨"Bienvenida", [⟨"texto", "hey", 2, [], "", ""⟩]⟩
      ⟨"texto", "hey", 2, [], "", ""⟩ rfl rfl (by decide) (by decide) rfl).2
    (by decide)).1

/-! ## C6 — lyric Deliver is a no-op before the 15-minute threshold -/

/-- C6: a `enviarLetra` record whose generation timestamp is strictly
less than 15 minutes old is left completely untouched by `sendLetras`:
no WhatsApp send, no message-log append, no lead update, record
unchanged — and therefore any number of repeated invocations before
the threshold leaves it unchanged as well. -/
theorem c6_lyric_deliver_noop_before_threshold
    (g : Int) (leads : List Lead) (r : LetraRec)
    (hst : r.status = "enviarLetra") (hg : r.letraGeneratedAt = some g)
    (ts : List Int) (hts : ∀ t ∈ ts, t - g < 15 * 60000) :
    (∀ t ∈ ts, sendLetrasDoc t leads r = ⟨r, [], [], none⟩) ∧
    ts.foldl (fun acc t => (sendLetrasDoc t leads acc).doc) r = r := by
  have key : ∀ t : Int, t - g < 15 * 60000 →
      sendLetrasDoc t leads r = ⟨r, [], [], none⟩ := by
    intro t ht
    unfold sendLetrasDoc
    by_cases hc : (r.leadId == "" || r.letra == "" || r.letraGeneratedAt.isNone) = true
    · rw [if_pos hc]
    · rw [if_neg hc]
      simp only [hg]
      rw [if_pos ht]
  constructor
  · intro t htm
    exact key t (hts t htm)
  · induction ts with
    | nil => rfl
    | cons t ts' ih =>
      have h1 : t - g < 15 * 60000 := hts t (List.mem_cons_self _ _)
      simp only [List.foldl_cons, key t h1]
      exact ih (fun t' ht' => hts t' (List.mem_cons_of_mem _ ht'))

/-- Witness for C6: two ticks one millisecond before the threshold. -/
theorem c6_lyric_deliver_noop_before_threshold_witness :
    (∀ t ∈ ([899999, 10] : List Int),
      sendLetrasDoc t [] ⟨"LR", "L1", "letra x", "Ana", some 0, "enviarLetra"⟩ =
        ⟨⟨"LR", "L1", "letra x", "Ana", some 0, "enviarLetra"⟩, [], [], none⟩) ∧
    ([899999, 10] : List Int).foldl
        (fun acc t => (sendLetrasDoc t [] acc).doc)
        ⟨"LR", "L1", "letra x", "Ana", some 0, "enviarLetra"⟩ =
      ⟨"LR", "L1", "letra x", "Ana", some 0, "enviarLetra"⟩ :=
  c6_lyric_deliver_noop_before_threshold 0 []
    ⟨"LR", "L1", "letra x", "Ana", some 0, "enviarLetra"⟩ rfl rfl
    [899999, 10] (by decide)

/-! ## C7 — lyric Generate processor -/

/-- C7: an empty generation result leaves the record (and the leads)
entirely unchanged; a nonempty one stores the trimmed lyric with status
`enviarLetra` and a generation timestamp on the record, copies the
lyric onto the associated Lead and array-unions the request id into the
Lead's `letraIds`, touching no other Lead. -/
theorem c7_lyric_generate
    (now : Int) (leads : List Lead) (r : LetraRec) (hst : r.status = "Sin letra") :
    (generateLetrasDoc none now leads r = (r, leads)) ∧
    (∀ s, jsTrimStr s = "" → generateLetrasDoc (some s) now leads r = (r, leads)) ∧
    (∀ s txt, jsTrimStr s = txt → txt ≠ "" →
      (generateLetrasDoc (some s) now leads r).1 =
        { r with letra := txt, status := "enviarLetra",
                 letraGeneratedAt := some now } ∧
      (∀ j : Nat, ∀ l : Lead, leads[j]? = some l →
        ((l.id = r.leadId →
           ∃ l', (generateLetrasDoc (some s) now leads r).2[j]? = some l' ∧
             leadGet l' "letra" = txt ∧ r.id ∈ l'.letraIds ∧
             l'.id = l.id ∧ l'.secuenciasActivas = l.secuenciasActivas) ∧
         (l.id ≠ r.leadId →
           (generateLetrasDoc (some s) now leads r).2[j]? = some l)))) := by
  refine ⟨rfl, ?_, ?_⟩
  · intro s hempty
    unfold generateLetrasDoc
    simp [hempty]
  · intro s txt htrim hne
    have hbeq : (jsTrimStr s == "") = false := by
      rw [htrim]
      simpa using hne
    constructor
    · unfold generateLetrasDoc
      simp [hbeq, htrim, hne]
    · intro j l hj
      have hmap : (generateLetrasDoc (some s) now leads r).2[j]? =
          some (if l.id == r.leadId then
                  { l with fields := setField l.fields "letra" (jsTrimStr s),
                           letraIds := arrayUnion l.letraIds r.id }
                else l) := by
        unfold generateLetrasDoc
        simp [hbeq, List.getElem?_map, hj]
      constructor
      · intro hid
        have hidb : (l.id == r.leadId) = true := by simpa using hid
        have hmap2 : (generateLetrasDoc (some s) now leads r).2[j]? =
            some { l with fields := setField l.fields "letra" (jsTrimStr s),
                          letraIds := arrayUnion l.letraIds r.id } := by
          rw [hmap, hidb]
          simp
        refine ⟨_, hmap2, ?_, mem_arrayUnion _ _, rfl, rfl⟩
        simp only [leadGet]
        rw [lookup_setField_self]
        simpa using htrim
      · intro hid
        have hidb : (l.id == r.leadId) = false := by simpa using hid
        rw [hmap, hidb]
        simp

/-- Witness for C7: a concrete successful generation. -/
theorem c7_lyric_generate_witness :
    (generateLetrasDoc (some " mi letra ") 7
        [⟨"L1", [("nombre", "Ana")], [], [], []⟩]
        ⟨"LR", "L1", "", "Ana", none, "Sin letra"⟩).1 =
      ⟨"LR", "L1", "mi letra", "Ana", some 7, "enviarLetra"⟩ :=
  (((c7_lyric_generate 7 [⟨"L1", [("nombre", "Ana")], [], [], []⟩]
      ⟨"LR", "L1", "", "Ana", none, "Sin letra"⟩ rfl).2.2
    " mi letra " "mi letra" (by decide) (by decide)).1)

/-! ## C8 — phone validation in the lyric Deliver processor -/

/-- C8: the phone check strips non-digits and accepts exactly the
10-to-15-digit remainders; `"123"` and `"123456789012345678"` are
rejected (and a due record with such a Lead phone is skipped
unchanged), `"5215512345678"` is accepted (and a due, complete record
with such a phone is delivered and marked `enviada`). -/
theorem c8_phone_validation :
    validPhone (stripDigits "123") = false ∧
    validPhone (stripDigits "123456789012345678") = false ∧
    validPhone (stripDigits "5215512345678") = true ∧
    (∀ s : String, validPhone (stripDigits s) = true ↔
      (10 ≤ (stripDigits s).length ∧ (stripDigits s).length ≤ 15)) ∧
    (∀ (now g : Int) (leads : List Lead) (r : LetraRec) (lead : Lead),
      r.letraGeneratedAt = some g → ¬ (now - g < 15 * 60000) →
      leads.find? (fun l => l.id == r.leadId) = some lead →
      validPhone (stripDigits (leadGet lead "telefono")) = false →
      sendLetrasDoc now leads r = ⟨r, [], [], none⟩) ∧
    (∀ (now g : Int) (leads : List Lead) (r : LetraRec) (lead : Lead),
      r.leadId ≠ "" → r.letra ≠ "" →
      r.letraGeneratedAt = some g → ¬ (now - g < 15 * 60000) →
      leads.find? (fun l => l.id == r.leadId) = some lead →
      validPhone (stripDigits (leadGet lead "telefono")) = true →
      (sendLetrasDoc now leads r).doc.status = "enviada" ∧
      (sendLetrasDoc now leads r).sends ≠ []) := by
  refine ⟨by decide, by decide, by decide, ?_, ?_, ?_⟩
  · intro s
    unfold validPhone
    have hdig : (stripDigits s).data.all Char.isDigit = true := by
      unfold stripDigits
      simp only [List.all_eq_true]
      intro c hc
      exact (List.mem_filter.mp hc).2
    simp [hdig]
  · intro now g leads r lead hg hdue hfind hbad
    unfold sendLetrasDoc
    by_cases hc : (r.leadId == "" || r.letra == "" || r.letraGeneratedAt.isNone) = true
    · rw [if_pos hc]
    · rw [if_neg hc]
      simp only [hg]
      rw [if_neg hdue]
      simp only [hfind]
      simp [hbad]
  · intro now g leads r lead hid hletra hg hdue hfind hgood
    have heval : sendLetrasDoc now leads r =
        ⟨{ r with status := "enviada" },
         [WaSend.text (stripDigits (leadGet lead "telefono"))
            ("Listo " ++ firstSpaceToken (jsTrimStr r.requesterName) ++
             ", ya terminé la letra para tu canción. *Léela y dime si te gusta.*"),
          WaSend.text (stripDigits (leadGet lead "telefono")) r.letra,
          WaSend.audio (stripDigits (leadGet lead "telefono")) sendLetrasAudioUrl,
          WaSend.video (stripDigits (leadGet lead "telefono")) sendLetrasVideoUrl,
          WaSend.text (stripDigits (leadGet lead "telefono"))
            (promoText (firstSpaceToken (jsTrimStr r.requesterName)))],
         [⟨"Listo " ++ firstSpaceToken (jsTrimStr r.requesterName) ++
             ", ya terminé la letra para tu canción. *Léela y dime si te gusta.*",
           "business", none, none⟩,
          ⟨r.letra, "business", none, none⟩,
          ⟨"", "business", some "audio", some sendLetrasAudioUrl⟩,
          ⟨"", "business", some "video", some sendLetrasVideoUrl⟩,
          ⟨promoText (firstSpaceToken (jsTrimStr r.requesterName)),
           "business", none, none⟩],
         some ⟨"LetraEnviada", now, 0, false⟩⟩ := by
      unfold sendLetrasDoc
      have hc : (r.leadId == "" || r.letra == "" || r.letraGeneratedAt.isNone) = false := by
        simp [hid, hletra, hg]
      rw [hc]
      simp only [Bool.false_eq_true, if_false]
      simp only [hg]
      rw [if_neg hdue]
      simp only [hfind]
      simp [hgood]
    rw [heval]
    simp

/-- Witness for C8's conditional parts at a concrete accepted phone. -/
theorem c8_phone_validation_witness :
    (sendLetrasDoc 900000
        [⟨"L1", [("telefono", "5215512345678")], [], [], []⟩]
        ⟨"LR", "L1", "letra x", "Ana", some 0, "enviarLetra"⟩).doc.status =
      "enviada" :=
  ((c8_phone_validation).2.2.2.2.2 900000 0
      [⟨"L1", [("telefono", "5215512345678")], [], [], []⟩]
      ⟨"LR", "L1", "letra x", "Ana", some 0, "enviarLetra"⟩
      ⟨"L1", [("telefono", "5215512345678")], [], [], []⟩
      (by decide) (by decide) (by decide) (by decide) (by decide) (by decide)).1

/-! ## C4 — music Deliver processor -/

/-- C4 counterexample: a due, complete `Enviar música` record (created
at 1 ms, delivered at 900001 ms, i.e. exactly 15 minutes later)
produces exactly two sends — the lyric text behind a fixed
(non-personalized) intro line and the clip audio — not the
three-or-more sends (greeting with the Lead's name, lyric text,
feedback prompt, clip audio) the claim describes; the processor never
reads the Lead's name at all. -/
theorem c4_music_deliver_counterexample :
    (enviarMusicaDoc 900001
        ⟨"M3", "Enviar música", "L1", "5215512345678", "p", "s", "lyr",
         "http://clip", none, none, none, some 1, none, none⟩).sends =
      [WaSend.text "5215512345678" ("Aquí tienes la letra de tu canción:\n\n" ++ "lyr"),
       WaSend.audio "5215512345678" "http://clip"] ∧
    (enviarMusicaDoc 900001
        ⟨"M3", "Enviar música", "L1", "5215512345678", "p", "s", "lyr",
         "http://clip", none, none, none, some 1, none, none⟩).sends.length = 2 ∧
    ¬ (3 ≤ (enviarMusicaDoc 900001
        ⟨"M3", "Enviar música", "L1", "5215512345678", "p", "s", "lyr",
         "http://clip", none, none, none, some 1, none, none⟩).sends.length) := by
  refine ⟨by decide, by decide, by decide⟩

/-- C4 amended: a record with a nonzero creation timestamp at least
15 minutes old and complete fields is delivered with exactly two sends
(the lyric text behind a fixed intro line, and the clip audio), gets
status `Enviada` with a sent timestamp and enqueues a `CancionEnviada`
sequence instance with index 0 on the Lead; a record with phone,
lyrics or clip URL missing is logged and left in place; and a record
whose creation timestamp is absent or the falsy epoch 0 is coerced to
`now` and therefore always skipped as not yet due. -/
theorem c4_music_deliver
    (now c : Int) (doc : MusicaRec)
    (hst : doc.status = "Enviar música")
    (hcreated : doc.createdAt = some c)
    (hc0 : c ≠ 0)
    (hdue : ¬ (now - c < 15 * 60000)) :
    (stripDigits doc.leadPhone ≠ "" → doc.lyrics ≠ "" → doc.clipUrl ≠ "" →
      enviarMusicaDoc now doc =
        ⟨{ doc with status := "Enviada", sentAt := some now },
         [WaSend.text (stripDigits doc.leadPhone)
            ("Aquí tienes la letra de tu canción:\n\n" ++ doc.lyrics),
          WaSend.audio (stripDigits doc.leadPhone) doc.clipUrl],
         some ⟨"CancionEnviada", now, 0, false⟩⟩) ∧
    ((stripDigits doc.leadPhone = "" ∨ doc.lyrics = "" ∨ doc.clipUrl = "") →
      enviarMusicaDoc now doc = ⟨doc, [], none⟩) ∧
    (∀ d : MusicaRec, d.createdAt = some 0 ∨ d.createdAt = none →
      enviarMusicaDoc now d = ⟨d, [], none⟩) := by
  have hcr : (match doc.createdAt with
      | none => now
      | some t => if t = 0 then now else t) = c := by
    rw [hcreated]
    simp [hc0]
  refine ⟨?_, ?_, ?_⟩
  · intro hp hl hc
    unfold enviarMusicaDoc
    rw [hcr]
    rw [if_neg hdue]
    have hcond : (stripDigits doc.leadPhone == "" || doc.lyrics == "" ||
        doc.clipUrl == "") = false := by
      simp [hp, hl, hc]
    rw [hcond]
    simp
  · intro hmiss
    unfold enviarMusicaDoc
    rw [hcr]
    rw [if_neg hdue]
    have hcond : (stripDigits doc.leadPhone == "" || doc.lyrics == "" ||
        doc.clipUrl == "") = true := by
      rcases hmiss with h | h | h
      · simp [h]
      · simp [h]
      · simp [h]
    rw [hcond]
    simp
  · intro d hd
    have hdr : (match d.createdAt with
        | none => now
        | some t => if t = 0 then now else t) = now := by
      rcases hd with h | h
      · rw [h]
        simp
      · rw [h]
    unfold enviarMusicaDoc
    rw [hdr]
    rw [if_pos (by omega)]

/-- Witness for the amended C4 at a concrete record created at 1 ms. -/
theorem c4_music_deliver_witness :
    enviarMusicaDoc 900001
        ⟨"M3", "Enviar música", "L1", "+52 155 1234 5678", "p", "s", "lyr",
         "http://clip", none, none, none, some 1, none, none⟩ =
      ⟨⟨"M3", "Enviada", "L1", "+52 155 1234 5678", "p", "s", "lyr",
        "http://clip", none, none, none, some 1, some 900001, none⟩,
       [WaSend.text "5215512345678"
          ("Aquí tienes la letra de tu canción:\n\n" ++ "lyr"),
        WaSend.audio "5215512345678" "http://clip"],
       some ⟨"CancionEnviada", 900001, 0, false⟩⟩ := by
  have h := (c4_music_deliver 900001 1
      ⟨"M3", "Enviar música", "L1", "+52 155 1234 5678", "p", "s", "lyr",
       "http://clip", none, none, none, some 1, none, none⟩
      rfl rfl (by decide) (by decide)).1 (by decide) (by decide) (by decide)
  rw [h]
  decide

/-! ## C10 — template parameters are sanitized and truncated -/

/-- C10: every body parameter string produced by the template branch of
`enviarMensaje` has at most `1024 - 5 = 1019` characters, contains no
carriage return, line feed or tab, and has no two consecutive spaces,
whatever the placeholder substitution produced. -/
theorem c10_template_params_sanitized
    (letras : List (String × String)) (lead : Lead) (m : Mensaje)
    (hm : m.type = "template") :
    ∀ s ∈ templateParams letras lead m,
      s.length ≤ 1019 ∧
      (∀ c ∈ s.data, isCRLFT c = false) ∧
      List.Chain' (fun a b => ¬(a = ' ' ∧ b = ' ')) s.data := by
  intro s hs
  unfold templateParams at hs
  rcases List.mem_map.mp hs with ⟨p, _, hp⟩
  set raw := replacePlaceholders p.value (effectiveLead letras lead m) with hraw
  -- properties of the sanitized middle stage
  have hsan : (∀ c ∈ (sanitizeParam raw).data, isCRLFT c = false) ∧
      List.Chain' (fun a b => ¬(a = ' ' ∧ b = ' ')) (sanitizeParam raw).data := by
    unfold sanitizeParam jsTrim
    constructor
    · intro c hc
      have hc1 : c ∈ collapseRuns (fun c => c == ' ') ' '
          (collapseRuns isCRLFT ' ' raw.data false) false := by
        have h2 := (prefixOfSelf_trimRight _).sublist.mem hc
        exact ((List.dropWhile_suffix jsWs).sublist.mem h2)
      rcases mem_collapseRuns hc1 with rfl | ⟨hmem, _⟩
      · rfl
      · rcases mem_collapseRuns hmem with rfl | ⟨_, hnot⟩
        · rfl
        · exact hnot
    · have hchain := (chain_collapseSpaces (collapseRuns isCRLFT ' ' raw.data false)
        false).1
      have hchain2 := List.Chain'.suffix hchain (List.dropWhile_suffix jsWs)
      exact List.Chain'.prefix hchain2 (prefixOfSelf_trimRight _)
  have hfinal : truncateToLimit (sanitizeParam raw) 1024 5 = s := hp
  rw [← hfinal]
  unfold truncateToLimit
  by_cases hlen : (sanitizeParam raw).length ≤ 1024 - 5
  · rw [if_pos hlen]
    exact ⟨hlen, hsan.1, hsan.2⟩
  · rw [if_neg hlen]
    refine ⟨by simp, ?_, ?_⟩
    · intro c hc
      exact hsan.1 c ((List.take_sublist _ _).mem hc)
    · have htp := List.take_prefix (1024 - 5) (sanitizeParam raw).data
      exact List.Chain'.prefix hsan.2 htp

/-- Witness for C10 on a concrete messy parameter. -/
theorem c10_template_params_sanitized_witness :
    ("a b".length ≤ 1019 ∧
      (∀ c ∈ "a b".data, isCRLFT c = false) ∧
      List.Chain' (fun a b => ¬(a = ' ' ∧ b = ' ')) "a b".data) :=
  c10_template_params_sanitized [] ⟨"L1", [], [], [], []⟩
    ⟨"template", "", 0, [⟨"1", "a \r\n\t b"⟩], "t", "es_MX"⟩ rfl
    "a b" (by decide)

/-! ## C9 — placeholder substitution and the on-demand lyric fetch -/

/-- `takeWhile`/`dropWhile` across a block that wholly satisfies the
predicate, followed by a character that does not. -/
theorem takeWhile_append_of_all (p : Char → Bool) (w : List Char)
    (hw : ∀ c ∈ w, p c = true) (c0 : Char) (hc : p c0 = false) (r : List Char) :
    (w ++ c0 :: r).takeWhile p = w ∧ (w ++ c0 :: r).dropWhile p = c0 :: r := by
  induction w with
  | nil => simp [List.takeWhile_cons, List.dropWhile_cons, hc]
  | cons x xs ih =>
    have hx : p x = true := hw x (List.mem_cons_self _ _)
    have ih' := ih (fun c hcm => hw c (List.mem_cons_of_mem _ hcm))
    simp [List.takeWhile_cons, List.dropWhile_cons, hx, ih'.1, ih'.2]

/-- The scanner sends the empty input to the empty output at any fuel. -/
theorem replAux_nil (lead : Lead) (n : Nat) : replAux lead n [] = [] := by
  cases n <;> rfl

/-- The scanner's output does not depend on the fuel once the fuel
covers the input length (each step consumes at least one character). -/
theorem replAux_fuel (lead : Lead) :
    ∀ (k : Nat) (l : List Char), l.length ≤ k → ∀ (n m : Nat),
      l.length ≤ n → l.length ≤ m → replAux lead n l = replAux lead m l := by
  intro k
  induction k with
  | zero =>
    intro l hk n m hn hm
    have hl : l = [] := List.eq_nil_of_length_eq_zero (Nat.le_zero.mp hk)
    rw [hl, replAux_nil, replAux_nil]
  | succ k ih =>
    intro l hk n m hn hm
    cases l with
    | nil => rw [replAux_nil, replAux_nil]
    | cons c cs =>
      simp only [List.length_cons] at hk hn hm
      obtain ⟨n', rfl⟩ : ∃ n', n = n' + 1 := ⟨n - 1, by omega⟩
      obtain ⟨m', rfl⟩ : ∃ m', m = m' + 1 := ⟨m - 1, by omega⟩
      have hkcs : cs.length ≤ k := by omega
      have hn' : cs.length ≤ n' := by omega
      have hm' : cs.length ≤ m' := by omega
      by_cases hc : (c == '\x7b') = true
      · cases cs with
        | nil => simp [replAux, hc]
        | cons c2 cs2 =>
          simp only [List.length_cons] at hkcs hn' hm'
          by_cases hc2 : (c2 == '\x7b') = true
          · by_cases hemp : (cs2.takeWhile isWordChar).isEmpty = true
            · simp only [replAux, hc, if_true, hc2, hemp]
              exact congrArg _ (ih (c2 :: cs2) (by simp; omega) n' m'
                (by simp; omega) (by simp; omega))
            · have hemp' : (cs2.takeWhile isWordChar).isEmpty = false := by
                simpa using hemp
              by_cases htk : ((cs2.dropWhile isWordChar).take 2 ==
                  ['\x7d', '\x7d']) = true
              · simp only [replAux, hc, if_true, hc2, hemp', Bool.false_eq_true,
                  if_false, htk]
                have hrest : ((cs2.dropWhile isWordChar).drop 2).length ≤ cs2.length := by
                  have h1 : (cs2.dropWhile isWordChar).length ≤ cs2.length :=
                    (List.dropWhile_suffix isWordChar).sublist.length_le
                  simp only [List.length_drop]
                  omega
                exact congrArg _ (ih ((cs2.dropWhile isWordChar).drop 2)
                  (by omega) n' m' (by omega) (by omega))
              · have htk' : ((cs2.dropWhile isWordChar).take 2 ==
                    ['\x7d', '\x7d']) = false := by simpa using htk
                simp only [replAux, hc, if_true, hc2, hemp', Bool.false_eq_true,
                  if_false, htk']
                exact congrArg _ (ih (c2 :: cs2) (by simp; omega) n' m'
                  (by simp; omega) (by simp; omega))
          · have hc2' : (c2 == '\x7b') = false := by simpa using hc2
            simp only [replAux, hc, if_true, hc2', Bool.false_eq_true, if_false]
            exact congrArg _ (ih (c2 :: cs2) (by simp; omega) n' m'
              (by simp; omega) (by simp; omega))
      · have hc' : (c == '\x7b') = false := by simpa using hc
        simp only [replAux, hc', Bool.false_eq_true, if_false]
        exact congrArg _ (ih cs hkcs n' m' hn' hm')

/-- One scan step over a literal character that is not an opening brace. -/
theorem replAux_literal (lead : Lead) (fuel : Nat) (c : Char) (cs : List Char)
    (hc : (c == '\x7b') = false) :
    replAux lead (fuel + 1) (c :: cs) = c :: replAux lead fuel cs := by
  simp [replAux, hc]

/-- One scan step over an opening brace followed by a non-brace. -/
theorem replAux_brace_stop (lead : Lead) (fuel : Nat) (c2 : Char) (l : List Char)
    (hc2 : (c2 == '\x7b') = false) :
    replAux lead (fuel + 1) ('\x7b' :: c2 :: l) =
      '\x7b' :: replAux lead fuel (c2 :: l) := by
  simp [replAux, hc2]

/-- One scan step over a double brace that does not open a well-formed
placeholder (no word character follows, or the word run is not closed
by a double closing brace). -/
theorem replAux_brace_malformed (lead : Lead) (fuel : Nat) (l : List Char)
    (hbad : (l.takeWhile isWordChar).isEmpty = true ∨
      ((l.dropWhile isWordChar).take 2 == ['\x7d', '\x7d']) = false) :
    replAux lead (fuel + 1) ('\x7b' :: '\x7b' :: l) =
      '\x7b' :: replAux lead fuel ('\x7b' :: l) := by
  rcases hbad with h | h
  · simp [replAux, h]
  · by_cases hemp : (l.takeWhile isWordChar).isEmpty = true
    · simp [replAux, hemp]
    · have hemp' : (l.takeWhile isWordChar).isEmpty = false := by simpa using hemp
      simp [replAux, hemp', h]

/-- One scan step over a well-formed placeholder, whatever follows it. -/
theorem replAux_match_step (lead : Lead) (fuel : Nat) (w rest : List Char)
    (hne : w ≠ []) (hw : ∀ ch ∈ w, isWordChar ch = true) :
    replAux lead (fuel + 1) ('\x7b' :: '\x7b' :: (w ++ '\x7d' :: '\x7d' :: rest)) =
      (applyField lead (String.mk w)).data ++ replAux lead fuel rest := by
  obtain ⟨a, as, rfl⟩ := List.exists_cons_of_ne_nil hne
  obtain ⟨htake, hdrop⟩ :=
    takeWhile_append_of_all isWordChar (a :: as) hw '\x7d' (by decide) ('\x7d' :: rest)
  have hemp : (List.takeWhile isWordChar ((a :: as) ++ '\x7d' :: '\x7d' :: rest)).isEmpty
      = false := by
    rw [htake]
    rfl
  have htk : ((List.dropWhile isWordChar ((a :: as) ++ '\x7d' :: '\x7d' :: rest)).take 2 ==
      ['\x7d', '\x7d']) = true := by
    rw [hdrop]
    rfl
  have hdp : (List.dropWhile isWordChar ((a :: as) ++ '\x7d' :: '\x7d' :: rest)).drop 2 =
      rest := by
    rw [hdrop]
    rfl
  simp only [replAux, beq_self_eq_true, if_true, hemp, Bool.false_eq_true, if_false,
    htk, hdp, htake, List.isEmpty_cons]

/-- `replacePlaceholders` substitutes a leading well-formed placeholder
and continues with the remainder of the template. -/
theorem replacePlaceholders_match (lead : Lead) (f rest : String)
    (hne : f.data ≠ []) (hw : ∀ ch ∈ f.data, isWordChar ch = true) :
    replacePlaceholders ("\x7b\x7b" ++ f ++ "\x7d\x7d" ++ rest) lead =
      applyField lead f ++ replacePlaceholders rest lead := by
  have hdata : ("\x7b\x7b" ++ f ++ "\x7d\x7d" ++ rest).data =
      '\x7b' :: '\x7b' :: (f.data ++ '\x7d' :: '\x7d' :: rest.data) := by
    rw [String.data_append, String.data_append, String.data_append]
    simp
  unfold replacePlaceholders
  rw [hdata]
  have hlen : ('\x7b' :: '\x7b' :: (f.data ++ '\x7d' :: '\x7d' :: rest.data)).length =
      (f.data.length + rest.data.length + 3) + 1 := by
    simp only [List.length_cons, List.length_append]
    omega
  rw [hlen, replAux_match_step lead _ f.data rest.data hne hw]
  have hfuel : replAux lead (f.data.length + rest.data.length + 3) rest.data =
      replAux lead rest.data.length rest.data :=
    replAux_fuel lead rest.data.length rest.data (Nat.le_refl _)
      (f.data.length + rest.data.length + 3) rest.data.length (by omega) (Nat.le_refl _)
  rw [hfuel]
  rfl

/-- `replacePlaceholders` copies a leading non-brace character and
continues with the remainder of the template. -/
theorem replacePlaceholders_literal (lead : Lead) (c : Char) (rest : String)
    (hc : (c == '\x7b') = false) :
    replacePlaceholders (String.mk (c :: rest.data)) lead =
      String.mk [c] ++ replacePlaceholders rest lead := by
  show String.mk (replAux lead (c :: rest.data).length (c :: rest.data)) = _
  simp only [List.length_cons]
  rw [replAux_literal lead rest.data.length c rest.data hc]
  rfl

/-- `replacePlaceholders` copies an opening brace not followed by a
second brace and continues from the next character. -/
theorem replacePlaceholders_brace_stop (lead : Lead) (c2 : Char) (l : List Char)
    (hc2 : (c2 == '\x7b') = false) :
    replacePlaceholders (String.mk ('\x7b' :: c2 :: l)) lead =
      String.mk ['\x7b'] ++ replacePlaceholders (String.mk (c2 :: l)) lead := by
  show String.mk (replAux lead ('\x7b' :: c2 :: l).length ('\x7b' :: c2 :: l)) = _
  simp only [List.length_cons]
  rw [replAux_brace_stop lead (l.length + 1) c2 l hc2]
  rfl

/-- `replacePlaceholders` copies the first brace of a malformed double
brace and rescans from the second. -/
theorem replacePlaceholders_brace_malformed (lead : Lead) (l : List Char)
    (hbad : (l.takeWhile isWordChar).isEmpty = true ∨
      ((l.dropWhile isWordChar).take 2 == ['\x7d', '\x7d']) = false) :
    replacePlaceholders (String.mk ('\x7b' :: '\x7b' :: l)) lead =
      String.mk ['\x7b'] ++ replacePlaceholders (String.mk ('\x7b' :: l)) lead := by
  show String.mk (replAux lead ('\x7b' :: '\x7b' :: l).length ('\x7b' :: '\x7b' :: l)) = _
  simp only [List.length_cons]
  rw [replAux_brace_malformed lead (l.length + 1) l hbad]
  rfl

/-- C9 counterexample: with two stored lyric ids the fetch reads
`letraIds[0]` — the FIRST-stored (oldest) request, "A" here — so the
substituted text is the oldest lyric, not the most recent; and a tab
inside the name is not a split point for `{{nombre}}`, which keeps
only text before a space character. -/
theorem c9_placeholder_counterexample :
    templateParams [("A", "vieja"), ("B", "nueva")]
        ⟨"L1", [("nombre", "Ana")], ["A", "B"], [], []⟩
        ⟨"template", "", 0, [⟨"1", "\x7b\x7bletra\x7d\x7d"⟩], "t", "es_MX"⟩ =
      ["vieja"] ∧
    "vieja" ≠ "nueva" ∧
    replacePlaceholders "\x7b\x7bnombre\x7d\x7d"
        ⟨"L2", [("nombre", "Ana\tLuz")], [], [], []⟩ = "Ana\tLuz" ∧
    "Ana\tLuz" ≠ "Ana" := by decide

/-- C9 amended: on any template, `replacePlaceholders` copies literal
characters and replaces each well-formed `{{field}}` with the Lead's
attribute (the recursion equations below cover every template: empty,
leading literal character, leading placeholder, and the degenerate
brace cases); `{{nombre}}` keeps the part of the name before the first
space character; an absent attribute substitutes to the empty string;
and a template message whose parameters mention `{{letra}}`
substitutes against the text of the first-stored (`letraIds[0]`)
associated Lyric Request, fetched on demand (no fetch when the Lead
has no stored lyric ids). -/
theorem c9_placeholder_substitution
    (lead : Lead) (letras : List (String × String)) (m : Mensaje) :
    (∀ f rest : String, f.data ≠ [] → (∀ ch ∈ f.data, isWordChar ch = true) →
      replacePlaceholders ("\x7b\x7b" ++ f ++ "\x7d\x7d" ++ rest) lead =
        applyField lead f ++ replacePlaceholders rest lead) ∧
    (∀ f : String, f.data ≠ [] → (∀ ch ∈ f.data, isWordChar ch = true) →
      replacePlaceholders ("\x7b\x7b" ++ f ++ "\x7d\x7d") lead = applyField lead f) ∧
    (∀ (c : Char) (rest : String), (c == '\x7b') = false →
      replacePlaceholders (String.mk (c :: rest.data)) lead =
        String.mk [c] ++ replacePlaceholders rest lead) ∧
    (∀ (c2 : Char) (l : List Char), (c2 == '\x7b') = false →
      replacePlaceholders (String.mk ('\x7b' :: c2 :: l)) lead =
        String.mk ['\x7b'] ++ replacePlaceholders (String.mk (c2 :: l)) lead) ∧
    (∀ l : List Char,
      (l.takeWhile isWordChar).isEmpty = true ∨
        ((l.dropWhile isWordChar).take 2 == ['\x7d', '\x7d']) = false →
      replacePlaceholders (String.mk ('\x7b' :: '\x7b' :: l)) lead =
        String.mk ['\x7b'] ++ replacePlaceholders (String.mk ('\x7b' :: l)) lead) ∧
    (replacePlaceholders "\x7b" lead = "\x7b") ∧
    (replacePlaceholders "" lead = "") ∧
    (applyField lead "nombre" = firstSpaceToken (leadGet lead "nombre")) ∧
    (applyField lead "letra" = leadGet lead "letra") ∧
    (∀ f : String, f ≠ "nombre" → f ≠ "letra" → applyField lead f = leadGet lead f) ∧
    (∀ f : String, lead.fields.lookup f = none → applyField lead f = "") ∧
    (∀ id rest, m.type = "template" →
      m.parameters.any (fun p => containsStr p.value "\x7b\x7bletra\x7d\x7d") = true →
      lead.letraIds = id :: rest →
      leadGet (effectiveLead letras lead m) "letra" =
        (letras.lookup id).getD "") ∧
    (lead.letraIds = [] → effectiveLead letras lead m = lead) := by
  refine ⟨fun f rest hne hw => replacePlaceholders_match lead f rest hne hw,
    ?_,
    fun c rest hc => replacePlaceholders_literal lead c rest hc,
    fun c2 l hc2 => replacePlaceholders_brace_stop lead c2 l hc2,
    fun l hbad => replacePlaceholders_brace_malformed lead l hbad,
    rfl, rfl, rfl, rfl, ?_, ?_, ?_, ?_⟩
  · intro f hne hw
    have h := replacePlaceholders_match lead f "" hne hw
    have hemp : ("\x7b\x7b" ++ f ++ "\x7d\x7d" ++ "") = "\x7b\x7b" ++ f ++ "\x7d\x7d" := by
      simp
    rw [hemp] at h
    rw [h]
    have hnil : replacePlaceholders "" lead = "" := rfl
    rw [hnil]
    simp
  · intro f h1 h2
    unfold applyField
    have hb1 : (f == "nombre") = false := by simpa using h1
    have hb2 : (f == "letra") = false := by simpa using h2
    rw [hb1, hb2]
    simp
  · intro f habs
    unfold applyField
    by_cases h1 : f = "nombre"
    · subst h1
      simp only [beq_self_eq_true, if_true]
      unfold leadGet
      rw [habs]
      rfl
    · have hb1 : (f == "nombre") = false := by simpa using h1
      rw [hb1]
      by_cases h2 : f = "letra"
      · subst h2
        simp only [beq_self_eq_true, if_true]
        unfold leadGet
        rw [habs]
        rfl
      · have hb2 : (f == "letra") = false := by simpa using h2
        rw [hb2]
        simp only [Bool.false_eq_true, if_false]
        unfold leadGet
        rw [habs]
        rfl
  · intro id rest htype hany hids
    unfold effectiveLead
    have htypeb : (m.type == "template") = true := by simpa using htype
    have hemp : lead.letraIds.isEmpty = false := by
      rw [hids]
      rfl
    rw [htypeb, hany, hemp]
    simp only [Bool.true_and, Bool.and_true, Bool.not_false, if_true]
    unfold leadSet leadGet fetchLetra
    simp only [lookup_setField_self, Option.getD_some]
    rw [hids]
    rfl
  · intro hids
    unfold effectiveLead
    have hemp : lead.letraIds.isEmpty = true := by
      rw [hids]
      rfl
    rw [hemp]
    simp

/-- Witness for the amended C9: a placeholder followed by literal text
in the same template. -/
theorem c9_placeholder_substitution_witness :
    replacePlaceholders ("\x7b\x7b" ++ "telefono" ++ "\x7d\x7d" ++ " ok")
        ⟨"L1", [("telefono", "555")], [], [], []⟩ =
      applyField ⟨"L1", [("telefono", "555")], [], [], []⟩ "telefono" ++
        replacePlaceholders " ok" ⟨"L1", [("telefono", "555")], [], [], []⟩ :=
  (c9_placeholder_substitution ⟨"L1", [("telefono", "555")], [], [], []⟩ []
    ⟨"texto", "", 0, [], "", ""⟩).1 "telefono" " ok" (by decide) (by decide)
